import Mathlib

/-!
Shallow embedding of `carelink_client_proxy.py` (Carelink Client Proxy).

The program polls a remote API client for a data snapshot, stores the most
recent result in the module-level variable `recentData`, and serves it over
HTTP at `/carelink` (full) and `/carelink/nohistory` (with four bulky keys
removed).  Python values handled by the proxy are modelled by `PyVal`
(dictionaries as association lists — Python dictionaries have unique keys,
which enters as a `Nodup` hypothesis where it matters).  The external
`carelink_client.CareLinkClient` is opaque to the proxy; one fetch attempt is
modelled by `FetchOutcome` (the tuple of `getRecentData()`'s return value and
the subsequent `getLastResponseCode` / `getLastDataSuccess` /
`getLastErrorMessage` answers) or by a raised exception (`AttemptResult.exn`).
The main loop is transcribed into trace-producing functions emitting `Event`s.
-/

namespace CarelinkProxy

/-- A Python value as manipulated by the proxy: `None`, scalars, lists and
dictionaries (association lists; JSON-decoded dictionaries have pairwise
distinct keys). -/
inductive PyVal where
  | none
  | pbool (b : Bool)
  | pint (n : Int)
  | pstr (s : String)
  | plist (xs : List PyVal)
  | pdict (fields : List (String × PyVal))

/-- `BASEURI` constant (line 53 of the source). -/
def BASEURI : String := "carelink"

/-- `OPT_NOHISTORY` constant (line 54). -/
def OPT_NOHISTORY : String := "nohistory"

/-- `UPDATE_INTERVAL` constant (line 56), the default poll interval. -/
def UPDATE_INTERVAL : Int := 300

/-- `RETRY_INTERVAL` constant (line 57), the fixed retry interval. -/
def RETRY_INTERVAL : Int := 120

/-- `HTTPStatus.OK`. -/
def HTTP_OK : Int := 200

/-- `HTTPStatus.FORBIDDEN`. -/
def HTTP_FORBIDDEN : Int := 403

/-- `HTTPStatus.NOT_FOUND`. -/
def HTTP_NOT_FOUND : Int := 404

/-- Python `d[k]` lookup on a dictionary: the value bound to `k`
(first binding; bindings are unique in a Python dictionary). -/
def pyLookup (fs : List (String × PyVal)) (k : String) : Option PyVal :=
  (fs.find? (fun kv => kv.1 == k)).map (fun kv => kv.2)

/-- Python `del d[k]` with the `KeyError` caught and ignored: remove the
binding of `k` when present (unique in a Python dictionary), no-op when
absent.  Models each `try: del mydata[...] except (KeyError, TypeError): pass`
block of `get_essential_data` (lines 77–92). -/
def pyDelKey (fs : List (String × PyVal)) (k : String) : List (String × PyVal) :=
  fs.eraseP (fun kv => kv.1 == k)

/-- `get_essential_data(data)` (lines 73–93).  `mydata` starts as the empty
string; when `data` is not `None` it becomes `data.copy()` and the four keys
`sgs`, `markers`, `limits`, `notificationHistory` are deleted, each deletion
swallowing `KeyError` (key absent) and `TypeError` (`data` not a dictionary,
e.g. a list).  A value without a `.copy` method (scalar) raises an uncaught
`AttributeError`, modelled as `Option.none`. -/
def get_essential_data : PyVal → Option PyVal
  | PyVal.none => some (.pstr "")
  | .pdict fs =>
      some (.pdict (pyDelKey (pyDelKey (pyDelKey (pyDelKey fs "sgs")
        "markers") "limits") "notificationHistory"))
  | .plist xs => some (.plist xs)
  | _ => Option.none

/-- Escaping applied by `json.dumps` to `"` and `\` inside strings (escaping
of control and non-ASCII characters is elided: no value in this development
contains them). -/
def jsonEscapeChar (c : Char) : String :=
  if c = '\\' then "\\\\" else if c = '"' then "\\\"" else String.singleton c

/-- Escape a string for JSON output. -/
def jsonEscape (s : String) : String :=
  String.join (s.toList.map jsonEscapeChar)

mutual
/-- `json.dumps` with default separators `", "` and `": "`, as called on
lines 113 and 118. -/
def dumps : PyVal → String
  | .none => "null"
  | .pbool b => if b then "true" else "false"
  | .pint n => toString n
  | .pstr s => "\"" ++ jsonEscape s ++ "\""
  | .plist xs => "[" ++ String.intercalate ", " (dumpsList xs) ++ "]"
  | .pdict fs => "\x7b" ++ String.intercalate ", " (dumpsFields fs) ++ "\x7d"

/-- Serialize the elements of a JSON array. -/
def dumpsList : List PyVal → List String
  | [] => []
  | x :: xs => dumps x :: dumpsList xs

/-- Serialize the key/value pairs of a JSON object. -/
def dumpsFields : List (String × PyVal) → List String
  | [] => []
  | (k, v) :: fs => ("\"" ++ jsonEscape k ++ "\": " ++ dumps v) :: dumpsFields fs
end

/-- Python `path.strip("/")`: remove leading and trailing `/` characters
(line 111 and line 116). -/
def stripSlashes (s : String) : String :=
  String.mk (((s.toList.dropWhile (fun c => c == '/')).reverse.dropWhile
    (fun c => c == '/')).reverse)

/-- One HTTP response as produced by `MyServer.do_GET`: the status code sent
by `send_response`, the two headers sent by `send_header` (lines 127–128,
sent on every path), and the body written to `wfile`. -/
structure HttpResponse where
  status : Int
  contentType : String
  accessControlAllowOrigin : String
  body : String
deriving DecidableEq, Repr

/-- `MyServer.do_GET` (lines 105–133) as a function of the current
`recentData` and the request path.  `Option.none` models the handler raising
before a response is produced (only possible on the `nohistory` branch when
`get_essential_data` raises). -/
def do_GET (recentData : PyVal) (path : String) : Option HttpResponse :=
  if stripSlashes path == BASEURI then
    some ⟨HTTP_OK, "application/json", "*", dumps recentData⟩
  else if stripSlashes path == BASEURI ++ "/" ++ OPT_NOHISTORY then
    (get_essential_data recentData).map
      (fun d => ⟨HTTP_OK, "application/json", "*", dumps d⟩)
  else
    some ⟨HTTP_NOT_FOUND, "application/json", "*", ""⟩

/-- The observable result of one `client.getRecentData()` call together with
the client getters consulted right after it: `getLastResponseCode`,
`getLastDataSuccess`, `getLastErrorMessage`.  The client is an opaque
external collaborator, so all four components are unconstrained. -/
structure FetchOutcome where
  data : PyVal
  responseCode : Int
  dataSuccess : Bool
  errorMessage : Option String

/-- One attempt either returns a `FetchOutcome` or the `getRecentData()` call
raises an exception (caught by the `try`/`except` around the attempt loop,
lines 205 and 224–226). -/
inductive AttemptResult where
  | ret (o : FetchOutcome)
  | exn (msg : String)

/-- Observable events of a program run: the single `client.login()` call,
`client.getRecentData()` calls, `time.sleep` calls, `print` output,
`log.debug` output, `syslog` error records, and falling off the end of the
module (process exit). -/
inductive Event where
  | loginCall (ok : Bool)
  | fetchCall
  | sleep (secs : Int)
  | printMsg (msg : String)
  | logDebug (msg : String)
  | syslogErr (msg : String)
  | exitProcess

/-- How the `for j in range(2)` attempt loop of one cycle ended: via `break`
(OK response code), by exhausting both iterations, or by an exception caught
by the surrounding `except` clause. -/
inductive CycleEnd where
  | broke
  | exhausted
  | excepted
deriving DecidableEq, Repr

/-- State after the attempt loop of one cycle: the value of `recentData`, the
index of the next unconsumed attempt, the events emitted, and how the loop
ended. -/
structure LoopResult where
  store : PyVal
  nextIdx : Nat
  events : List Event
  endKind : CycleEnd

/-- The argument printed on line 215.  Python parses
`print("Data exception: " + "no details available" if msg == None else msg)`
as `print(("Data exception: " + "no details available") if msg == None
else msg)`, so when an error message is present it is printed without the
`"Data exception: "` prefix. -/
def dataExceptionMsg : Option String → String
  | Option.none => "Data exception: no details available"
  | some m => m

/-- The `print` line of the FORBIDDEN branch (line 219). -/
def forbiddenMsg : String :=
  "GetRecentData login error (status code FORBIDDEN). Trying again in 1 sec"

/-- The `print` line of the other-error branch (line 222). -/
def otherErrorMsg (code : Int) : String :=
  "Error, response code: " ++ toString code ++ " Trying again in 1 sec"

/-- The `for j in range(fuel)` attempt loop (lines 206–223) wrapped in the
`try`/`except` of lines 205/224–226, starting from store value `store` and
consuming attempts `next idx`, `next (idx+1)`, …  Each iteration assigns
`recentData = client.getRecentData()` unconditionally, then breaks on an OK
response code and otherwise prints, sleeps 1 second and retries; an
exception aborts the loop, leaving the store as it was when the call raised,
and is printed and syslogged by the `except` clause. -/
def runAttemptLoop : Nat → PyVal → (Nat → AttemptResult) → Nat → LoopResult
  | 0, store, _, idx => ⟨store, idx, [], CycleEnd.exhausted⟩
  | Nat.succ fuel, store, next, idx =>
    match next idx with
    | .exn m =>
        ⟨store, idx + 1,
          [Event.fetchCall, .printMsg m, .syslogErr ("ERROR: " ++ m)],
          CycleEnd.excepted⟩
    | .ret o =>
        if o.responseCode = HTTP_OK then
          if o.dataSuccess then
            ⟨o.data, idx + 1, [Event.fetchCall, .logDebug "New data received"],
              CycleEnd.broke⟩
          else
            ⟨o.data, idx + 1,
              [Event.fetchCall, .printMsg (dataExceptionMsg o.errorMessage)],
              CycleEnd.broke⟩
        else
          let evs :=
            if o.responseCode = HTTP_FORBIDDEN then
              [Event.fetchCall, .printMsg forbiddenMsg, .sleep 1]
            else
              [Event.fetchCall, .printMsg (otherErrorMsg o.responseCode), .sleep 1]
          let r := runAttemptLoop fuel o.data next (idx + 1)
          ⟨r.store, r.nextIdx, evs ++ r.events, r.endKind⟩

/-- The scheduling computation of lines 228–237, producing `tmoSeconds`.
`if recentData != None:` reads the timestamp
`recentData["lastConduitUpdateServerTime"]`; `int(…/1000)` is float division
truncated toward zero, `Int.tdiv` (exact where the float is; the timestamp
magnitudes in use are below 2^53, where they agree).  A non-dictionary store
or a missing or non-integer timestamp raises an uncaught exception there
(this code is outside the `try`), modelled as `Option.none`. -/
def computeTmoSeconds (recentData : PyVal) (wait now : Int) : Option Int :=
  match recentData with
  | PyVal.none => some RETRY_INTERVAL
  | .pdict fs =>
      match pyLookup fs "lastConduitUpdateServerTime" with
      | some (PyVal.pint t) =>
          let nextReading := Int.tdiv t 1000 + wait
          let tmoSeconds := nextReading - now
          some (if tmoSeconds < 0 then RETRY_INTERVAL else tmoSeconds)
      | _ => Option.none
  | _ => Option.none

/-- State after one full cycle of the `while True` loop: attempt loop
(lines 205–226) followed by the scheduling computation and the
`time.sleep(tmoSeconds+10)` of lines 228–240.  `crashed` records an uncaught
exception in the scheduling code. -/
structure CycleResult where
  store : PyVal
  nextIdx : Nat
  events : List Event
  endKind : CycleEnd
  crashed : Bool

/-- One iteration of the `while True` loop (lines 202–240), minus the
`log.debug("Starting download …")` prefix which `runLoop` emits. -/
def runCycle (store : PyVal) (next : Nat → AttemptResult) (idx : Nat)
    (wait now : Int) : CycleResult :=
  let r := runAttemptLoop 2 store next idx
  match computeTmoSeconds r.store wait now with
  | some tmo =>
      ⟨r.store, r.nextIdx,
        r.events ++
          [Event.logDebug
            ("Waiting " ++ toString tmo ++ " seconds before next download!"),
           Event.sleep (tmo + 10)],
        r.endKind, false⟩
  | Option.none => ⟨r.store, r.nextIdx, r.events, r.endKind, true⟩

/-- The first `n` iterations of the `while True` loop, threading the store
and the attempt index; `i` is the download counter.  `nowAt i` is the value
of `time.time()` during cycle `i`'s scheduling step.  A crash in the
scheduling code ends the run. -/
def runLoop (next : Nat → AttemptResult) (wait : Int) (nowAt : Nat → Int) :
    Nat → PyVal → Nat → Nat → PyVal × List Event
  | 0, store, _, _ => (store, [])
  | Nat.succ n, store, idx, i =>
      let c := runCycle store next idx wait (nowAt i)
      let pre := Event.logDebug ("Starting download " ++ toString (i + 1)) :: c.events
      if c.crashed then (c.store, pre)
      else
        let rest := runLoop next wait nowAt n c.store c.nextIdx (i + 1)
        (rest.1, pre ++ rest.2)

/-- The opaque remote client's observable behaviour: the result of the one
`login()` call, the `getLastResponseCode()` / `getLastErrorMessage()` answers
after it, and the stream of fetch attempts. -/
structure ClientBehavior where
  loginOk : Bool
  lastResponseCode : Int
  lastErrorMessage : Option String
  attempts : Nat → AttemptResult

/-- Python `str`: `str(None)` is `"None"`. -/
def pyStrOpt : Option String → String
  | Option.none => "None"
  | some s => s

/-- The message printed and syslogged when the initial login fails
(lines 242–243). -/
def loginErrorMsg (code : Int) (err : Option String) : String :=
  "Client login error! Response code: " ++ toString code ++
    " Error message: " ++ pyStrOpt err

/-- The program from the `client.login()` call onward (lines 199–244):
one login attempt; on success the polling loop (observed for `ncycles`
iterations), on failure the error report and the end of the module (the
process exits — the web server thread is a daemon). -/
def runProgram (c : ClientBehavior) (ncycles : Nat) (wait : Int)
    (nowAt : Nat → Int) : PyVal × List Event :=
  if c.loginOk then
    let r := runLoop c.attempts wait nowAt ncycles PyVal.none 0 0
    (r.1, Event.loginCall true :: r.2)
  else
    (PyVal.none,
      [Event.loginCall false,
       .printMsg (loginErrorMsg c.lastResponseCode c.lastErrorMessage),
       .syslogErr (loginErrorMsg c.lastResponseCode c.lastErrorMessage),
       .syslogErr "Emergency exit",
       .exitProcess])

/-- Number of `login()` calls recorded in a trace. -/
def countLogin (evs : List Event) : Nat :=
  (evs.filter (fun e => match e with | .loginCall _ => true | _ => false)).length

/-- Number of `getRecentData()` calls recorded in a trace. -/
def countFetch (evs : List Event) : Nat :=
  (evs.filter (fun e => match e with | .fetchCall => true | _ => false)).length

/-- Number of intra-cycle `time.sleep(1)` calls recorded in a trace. -/
def countSleepOne (evs : List Event) : Nat :=
  (evs.filter (fun e => match e with | .sleep s => s == 1 | _ => false)).length

/-! ## Theorems -/

/-- C4: before the first successful fetch (`recentData = None`), a GET to
`/carelink` returns status 200 with body `null` and a GET to
`/carelink/nohistory` returns status 200 with body `""` (the JSON empty
string) — both empty/null JSON documents, not errors. -/
theorem C4_empty_store_returns_ok :
    do_GET PyVal.none "/carelink" =
      some ⟨HTTP_OK, "application/json", "*", "null"⟩ ∧
    do_GET PyVal.none "/carelink/nohistory" =
      some ⟨HTTP_OK, "application/json", "*", "\"\""⟩ := by
  constructor <;> rfl

/-- C7: a GET whose path does not strip (modulo surrounding slashes) to
`carelink` or `carelink/nohistory` yields 404 with an empty body, and every
response produced by the handler carries the `Content-Type: application/json`
and `Access-Control-Allow-Origin: *` headers. -/
theorem C7_undefined_path_404_and_headers (data : PyVal) (path : String)
    (h1 : stripSlashes path ≠ BASEURI)
    (h2 : stripSlashes path ≠ BASEURI ++ "/" ++ OPT_NOHISTORY) :
    do_GET data path = some ⟨HTTP_NOT_FOUND, "application/json", "*", ""⟩ ∧
    ∀ (d : PyVal) (p : String) (r : HttpResponse), do_GET d p = some r →
      r.contentType = "application/json" ∧ r.accessControlAllowOrigin = "*" := by
  constructor
  · have hb1 : (stripSlashes path == BASEURI) = false :=
      beq_eq_false_iff_ne.mpr h1
    have hb2 : (stripSlashes path == BASEURI ++ "/" ++ OPT_NOHISTORY) = false :=
      beq_eq_false_iff_ne.mpr h2
    simp [do_GET, hb1, hb2]
  · intro d p r hr
    unfold do_GET at hr
    split at hr
    · cases hr
      exact ⟨rfl, rfl⟩
    · split at hr
      · rcases Option.map_eq_some'.mp hr with ⟨v, _, hfv⟩
        subst hfv
        exact ⟨rfl, rfl⟩
      · cases hr
        exact ⟨rfl, rfl⟩

/-- Witness for C7 at the concrete path `/foo` with an empty store. -/
theorem C7_witness :
    stripSlashes "/foo" ≠ BASEURI ∧
    do_GET PyVal.none "/foo" =
      some ⟨HTTP_NOT_FOUND, "application/json", "*", ""⟩ :=
  ⟨by decide,
   (C7_undefined_path_404_and_headers PyVal.none "/foo" (by decide)
      (by decide)).1⟩

/-- C1 counterexample: the claim says the store visible to HTTP handlers is,
after each fetch attempt, either unchanged or replaced by a successful
fetch's result.  Concretely: starting from a committed snapshot, a cycle
whose two attempts both return payload `None` with status 500 (never OK)
ends with the store replaced by `None` — changed, yet no fetch succeeded,
because line 207 assigns `recentData = client.getRecentData()` before the
status check. -/
theorem C1_counterexample :
    (runAttemptLoop 2
        (.pdict [("lastConduitUpdateServerTime", .pint 1700000000000)])
        (fun _ => .ret ⟨PyVal.none, 500, false, Option.none⟩) 0).store
      = PyVal.none ∧
    PyVal.none ≠
      PyVal.pdict [("lastConduitUpdateServerTime", .pint 1700000000000)] ∧
    (500 : Int) ≠ HTTP_OK := by
  refine ⟨rfl, fun h => PyVal.noConfusion h, by decide⟩

/-- C1 (amended): after each fetch attempt the snapshot store is
unconditionally replaced by that attempt's returned payload, successful or
not; the attempt loop ends with the store holding the payload of the last
attempt that returned (it is unchanged only when the first attempt raised
before returning). -/
theorem C1_amended_store_is_last_payload (store : PyVal)
    (next : Nat → AttemptResult) (idx : Nat) :
    (runAttemptLoop 2 store next idx).store =
      (match next idx with
       | .exn _ => store
       | .ret o =>
           if o.responseCode = HTTP_OK then o.data
           else
             match next (idx + 1) with
             | .exn _ => o.data
             | .ret o' => o'.data) := by
  cases h : next idx with
  | exn m => simp [runAttemptLoop, h]
  | ret o =>
    by_cases hc : o.responseCode = HTTP_OK
    · by_cases hd : o.dataSuccess <;> simp [runAttemptLoop, h, hc, hd]
    · cases h2 : next (idx + 1) with
      | exn m => simp [runAttemptLoop, h, hc, h2]
      | ret o' =>
        by_cases hc' : o'.responseCode = HTTP_OK
        · by_cases hd' : o'.dataSuccess <;>
            simp [runAttemptLoop, h, hc, h2, hc', hd']
        · simp [runAttemptLoop, h, hc, h2, hc']

/-- C2: with a stored snapshot carrying timestamp `t` (ms, non-negative),
configured interval `wait` and current time `now`, the computed delay is
`t / 1000 + wait - now` (floor division); when that value is negative the
fixed retry interval `RETRY_INTERVAL = 120` is used instead, and the actual
sleep on the success path is the computed delay plus the 10-second grace
period. -/
theorem C2_next_poll_delay (fs : List (String × PyVal)) (t wait now : Int)
    (hlook : pyLookup fs "lastConduitUpdateServerTime" = some (.pint t))
    (ht : 0 ≤ t)
    (store : PyVal) (next : Nat → AttemptResult) (idx : Nat) (o : FetchOutcome)
    (hret : next idx = .ret o) (hok : o.responseCode = HTTP_OK)
    (hdata : o.data = .pdict fs) :
    computeTmoSeconds (.pdict fs) wait now =
      some (if t / 1000 + wait - now < 0 then RETRY_INTERVAL
            else t / 1000 + wait - now) ∧
    (runCycle store next idx wait now).events.getLast? =
      some (Event.sleep
        ((if t / 1000 + wait - now < 0 then RETRY_INTERVAL
          else t / 1000 + wait - now) + 10)) := by
  have hdiv : Int.tdiv t 1000 = t / 1000 := Int.tdiv_eq_ediv ht (by norm_num)
  have hcompute : computeTmoSeconds (.pdict fs) wait now =
      some (if t / 1000 + wait - now < 0 then RETRY_INTERVAL
            else t / 1000 + wait - now) := by
    simp only [computeTmoSeconds, hlook, hdiv]
  refine ⟨hcompute, ?_⟩
  have hstore : (runAttemptLoop 2 store next idx).store = o.data := by
    by_cases hd : o.dataSuccess <;> simp [runAttemptLoop, hret, hok, hd]
  have hsched : computeTmoSeconds (runAttemptLoop 2 store next idx).store
      wait now =
      some (if t / 1000 + wait - now < 0 then RETRY_INTERVAL
            else t / 1000 + wait - now) := by
    rw [hstore, hdata]; exact hcompute
  simp only [runCycle, hsched]
  rw [show ∀ (l : List Event) (a b : Event), l ++ [a, b] = (l ++ [a]) ++ [b]
      from fun l a b => by simp]
  exact List.getLast?_concat _

/-- Witness for C2 at the spec's example: timestamp 1000000 ms, interval
300 s, current time 1000300 s; the computed value 1000 + 300 − 1000300 is
negative, so the retry interval 120 is used and the success-path sleep is
130 s. -/
theorem C2_witness :
    computeTmoSeconds
        (.pdict [("sgs", .plist []), ("markers", .plist []),
          ("lastConduitUpdateServerTime", .pint 1000000)]) 300 1000300 =
      some 120 ∧
    (runCycle PyVal.none
        (fun _ => .ret ⟨.pdict [("sgs", .plist []), ("markers", .plist []),
          ("lastConduitUpdateServerTime", .pint 1000000)], 200, true,
          Option.none⟩) 0 300 1000300).events.getLast? =
      some (Event.sleep 130) := by
  have h := C2_next_poll_delay
    [("sgs", .plist []), ("markers", .plist []),
      ("lastConduitUpdateServerTime", .pint 1000000)]
    1000000 300 1000300 rfl (by decide) PyVal.none
    (fun _ => .ret ⟨.pdict [("sgs", .plist []), ("markers", .plist []),
      ("lastConduitUpdateServerTime", .pint 1000000)], 200, true,
      Option.none⟩) 0
    ⟨.pdict [("sgs", .plist []), ("markers", .plist []),
      ("lastConduitUpdateServerTime", .pint 1000000)], 200, true,
      Option.none⟩ rfl rfl rfl
  have hdiv : (1000000 : Int) / 1000 = 1000 := by decide
  rw [hdiv] at h
  norm_num [RETRY_INTERVAL] at h
  exact h

/-- C10: in every cycle whose scheduling step does not crash — success,
data error, exhausted retries or a caught exception alike — the final sleep
equals the computed delay plus the 10-second grace period
(`time.sleep(tmoSeconds+10)` on line 240 runs on every path). -/
theorem C10_sleep_always_adds_grace (store : PyVal)
    (next : Nat → AttemptResult) (idx : Nat) (wait now tmo : Int)
    (h : computeTmoSeconds (runAttemptLoop 2 store next idx).store wait now =
      some tmo) :
    (runCycle store next idx wait now).events.getLast? =
      some (Event.sleep (tmo + 10)) := by
  simp only [runCycle, h]
  rw [show ∀ (l : List Event) (a b : Event), l ++ [a, b] = (l ++ [a]) ++ [b]
      from fun l a b => by simp]
  exact List.getLast?_concat _

/-- Witness for C10 on the retry-fallback path: both attempts fail with
payload `None`, the delay is the retry interval 120, and the actual sleep is
120 + 10 = 130 seconds. -/
theorem C10_witness :
    (runCycle (.pdict [("lastConduitUpdateServerTime", .pint 999)])
        (fun _ => .ret ⟨PyVal.none, 500, false, Option.none⟩)
        0 300 0).events.getLast? =
      some (Event.sleep 130) := by
  have h := C10_sleep_always_adds_grace
    (.pdict [("lastConduitUpdateServerTime", .pint 999)])
    (fun _ => .ret ⟨PyVal.none, 500, false, Option.none⟩) 0 300 0 120 rfl
  simpa using h

/-- C5 counterexample: the claim says an exhausted cycle leaves the
previously stored snapshot unchanged.  Concretely: starting from a committed
snapshot, a cycle whose two attempts both return payload `None` with status
503 exhausts its bound — and the store ends as `None`, not the previous
snapshot, because every attempt overwrites `recentData` (line 207). -/
theorem C5_counterexample :
    (runAttemptLoop 2
        (.pdict [("sgs", .plist [.pint 1]),
          ("lastConduitUpdateServerTime", .pint 1000000)])
        (fun _ => .ret ⟨PyVal.none, 503, false, Option.none⟩) 0).endKind
      = CycleEnd.exhausted ∧
    (runAttemptLoop 2
        (.pdict [("sgs", .plist [.pint 1]),
          ("lastConduitUpdateServerTime", .pint 1000000)])
        (fun _ => .ret ⟨PyVal.none, 503, false, Option.none⟩) 0).store
      ≠ .pdict [("sgs", .plist [.pint 1]),
          ("lastConduitUpdateServerTime", .pint 1000000)] ∧
    (503 : Int) ≠ HTTP_OK := by
  refine ⟨rfl, fun h => PyVal.noConfusion h, by decide⟩

/-- C5 (amended): exhausting both attempts of a cycle without a success
leaves the snapshot store holding the second attempt's returned payload —
the previous snapshot is overwritten, not preserved — and when that payload
is `None` the next cycle is scheduled with the fixed retry interval
(final sleep `RETRY_INTERVAL + 10`). -/
theorem C5_amended_overwrite_and_retry (store : PyVal)
    (next : Nat → AttemptResult) (idx : Nat) (wait now : Int)
    (o o' : FetchOutcome)
    (h1 : next idx = .ret o) (h2 : next (idx + 1) = .ret o')
    (hc : o.responseCode ≠ HTTP_OK) (hc' : o'.responseCode ≠ HTTP_OK) :
    (runAttemptLoop 2 store next idx).endKind = CycleEnd.exhausted ∧
    (runAttemptLoop 2 store next idx).store = o'.data ∧
    (o'.data = PyVal.none →
      (runCycle store next idx wait now).events.getLast? =
        some (Event.sleep (RETRY_INTERVAL + 10))) := by
  have hloop : (runAttemptLoop 2 store next idx).endKind =
      CycleEnd.exhausted ∧ (runAttemptLoop 2 store next idx).store = o'.data := by
    constructor <;> simp [runAttemptLoop, h1, h2, hc, hc']
  refine ⟨hloop.1, hloop.2, fun hnone => ?_⟩
  have hsched : computeTmoSeconds (runAttemptLoop 2 store next idx).store
      wait now = some RETRY_INTERVAL := by
    rw [hloop.2, hnone]; rfl
  simp only [runCycle, hsched]
  rw [show ∀ (l : List Event) (a b : Event), l ++ [a, b] = (l ++ [a]) ++ [b]
      from fun l a b => by simp]
  exact List.getLast?_concat _

/-- Witness for C5 (amended) at two concrete failed attempts returning
`None` with status 500, from a previously committed snapshot. -/
theorem C5_witness :
    (runAttemptLoop 2 (.pdict [("markers", .plist [])])
        (fun _ => .ret ⟨PyVal.none, 500, false, some "down"⟩) 0).endKind
      = CycleEnd.exhausted ∧
    (runAttemptLoop 2 (.pdict [("markers", .plist [])])
        (fun _ => .ret ⟨PyVal.none, 500, false, some "down"⟩) 0).store
      = PyVal.none ∧
    (runCycle (.pdict [("markers", .plist [])])
        (fun _ => .ret ⟨PyVal.none, 500, false, some "down"⟩)
        0 300 50).events.getLast? =
      some (Event.sleep (RETRY_INTERVAL + 10)) := by
  have h := C5_amended_overwrite_and_retry (.pdict [("markers", .plist [])])
    (fun _ => .ret ⟨PyVal.none, 500, false, some "down"⟩) 0 300 50
    ⟨PyVal.none, 500, false, some "down"⟩ ⟨PyVal.none, 500, false, some "down"⟩
    rfl rfl (by decide) (by decide)
  exact ⟨h.1, h.2.1, h.2.2 rfl⟩

/-- C6: each cycle makes at most 2 fetch attempts; an attempt returning an
OK status ends the cycle's attempts at once (1 attempt, no intra-cycle
sleep), whether the payload is marked successful or not; an attempt
returning a non-OK status — forbidden or any other error alike — is
followed by a 1-second sleep and a retry, up to the 2-try bound (a second
non-OK return also sleeps 1 second before the bound ends the loop). -/
theorem C6_attempt_bound (store : PyVal) (next : Nat → AttemptResult)
    (idx : Nat) :
    countFetch (runAttemptLoop 2 store next idx).events ≤ 2 ∧
    countFetch (runAttemptLoop 2 store next idx).events =
      (match next idx with
       | .exn _ => 1
       | .ret o => if o.responseCode = HTTP_OK then 1 else 2) ∧
    countSleepOne (runAttemptLoop 2 store next idx).events =
      (match next idx with
       | .exn _ => 0
       | .ret o =>
           if o.responseCode = HTTP_OK then 0
           else
             match next (idx + 1) with
             | .exn _ => 1
             | .ret o' => if o'.responseCode = HTTP_OK then 1 else 2) ∧
    (runAttemptLoop 2 store next idx).endKind =
      (match next idx with
       | .exn _ => CycleEnd.excepted
       | .ret o =>
           if o.responseCode = HTTP_OK then CycleEnd.broke
           else
             match next (idx + 1) with
             | .exn _ => CycleEnd.excepted
             | .ret o' =>
                 if o'.responseCode = HTTP_OK then CycleEnd.broke
                 else CycleEnd.exhausted) := by
  refine ⟨?_, ?_, ?_, ?_⟩ <;>
  · cases h : next idx with
    | exn m => simp [runAttemptLoop, h, countFetch, countSleepOne]
    | ret o =>
      by_cases hc : o.responseCode = HTTP_OK
      · by_cases hd : o.dataSuccess <;>
          simp [runAttemptLoop, h, hc, hd, countFetch, countSleepOne]
      · cases h2 : next (idx + 1) with
        | exn m =>
          by_cases hf : o.responseCode = HTTP_FORBIDDEN <;>
            simp [runAttemptLoop, h, hc, h2, hf, countFetch, countSleepOne,
              show HTTP_FORBIDDEN ≠ HTTP_OK from by decide]
        | ret o' =>
          by_cases hf : o.responseCode = HTTP_FORBIDDEN <;>
          by_cases hc' : o'.responseCode = HTTP_OK <;>
          by_cases hd' : o'.dataSuccess <;>
          by_cases hf' : o'.responseCode = HTTP_FORBIDDEN <;>
            simp [runAttemptLoop, h, hc, h2, hf, hc', hd', hf',
              countFetch, countSleepOne,
              show HTTP_FORBIDDEN ≠ HTTP_OK from by decide]

/-- On a dictionary with pairwise-distinct keys (as every Python dictionary
has), deleting one key is the same as filtering out every binding of that
key. -/
theorem pyDelKey_eq_filter (k : String) (fs : List (String × PyVal))
    (h : (fs.map Prod.fst).Nodup) :
    pyDelKey fs k = fs.filter (fun kv => !(kv.1 == k)) := by
  induction fs with
  | nil => rfl
  | cons a l ih =>
    simp only [List.map_cons, List.nodup_cons] at h
    by_cases hk : a.1 = k
    · rw [pyDelKey, List.eraseP_cons_of_pos (by simp [hk]),
        List.filter_cons_of_neg (by simp [hk])]
      symm
      apply List.filter_eq_self.mpr
      intro kv hkv
      simp only [Bool.not_eq_true', beq_eq_false_iff_ne]
      intro hkk
      exact h.1 (by rw [hk, ← hkk]; exact List.mem_map_of_mem Prod.fst hkv)
    · rw [pyDelKey, List.eraseP_cons_of_neg (by simp [hk]),
        List.filter_cons_of_pos (by simp [hk])]
      exact congrArg (List.cons a) (ih h.2)

/-- Filtering a dictionary keeps its keys pairwise distinct. -/
theorem nodupKeys_filter (p : String × PyVal → Bool)
    (fs : List (String × PyVal)) (h : (fs.map Prod.fst).Nodup) :
    ((fs.filter p).map Prod.fst).Nodup :=
  h.sublist ((List.filter_sublist fs).map Prod.fst)

/-- On a dictionary with pairwise-distinct keys, `get_essential_data`
returns the dictionary with exactly the bindings of the four reserved keys
removed and every other binding (and their order) untouched. -/
theorem get_essential_data_pdict (fs : List (String × PyVal))
    (h : (fs.map Prod.fst).Nodup) :
    get_essential_data (.pdict fs) =
      some (.pdict (fs.filter (fun kv =>
        !(kv.1 == "sgs" || kv.1 == "markers" || kv.1 == "limits" ||
          kv.1 == "notificationHistory")))) := by
  have e1 := pyDelKey_eq_filter "sgs" fs h
  have n1 := nodupKeys_filter (fun kv => !(kv.1 == "sgs")) fs h
  have e2 := pyDelKey_eq_filter "markers" _ n1
  have n2 := nodupKeys_filter (fun kv => !(kv.1 == "markers")) _ n1
  have e3 := pyDelKey_eq_filter "limits" _ n2
  have n3 := nodupKeys_filter (fun kv => !(kv.1 == "limits")) _ n2
  have e4 := pyDelKey_eq_filter "notificationHistory" _ n3
  simp only [get_essential_data]
  rw [e1, e2, e3, e4]
  rw [List.filter_filter, List.filter_filter, List.filter_filter]
  refine congrArg some (congrArg PyVal.pdict ?_)
  apply List.filter_congr
  intro kv _
  cases hs : (kv.1 == "sgs") <;> cases hm : (kv.1 == "markers") <;>
    cases hl : (kv.1 == "limits") <;>
    cases hn : (kv.1 == "notificationHistory") <;> simp [hs, hm, hl, hn]

/-- C3: for every dictionary snapshot (keys pairwise distinct, as in any
Python dictionary, and any subset of the reserved keys possibly absent), the
body served at `/carelink/nohistory` is the serialization of the snapshot
with exactly the four keys `sgs`, `markers`, `limits`, `notificationHistory`
filtered out — no other binding altered, absence of a reserved key a no-op —
while `/carelink` serves the full snapshot. -/
theorem C3_nohistory_is_full_minus_reserved (fs : List (String × PyVal))
    (hnd : (fs.map Prod.fst).Nodup) :
    do_GET (.pdict fs) "/carelink/nohistory" =
      some ⟨HTTP_OK, "application/json", "*",
        dumps (.pdict (fs.filter (fun kv =>
          !(kv.1 == "sgs" || kv.1 == "markers" || kv.1 == "limits" ||
            kv.1 == "notificationHistory"))))⟩ ∧
    do_GET (.pdict fs) "/carelink" =
      some ⟨HTTP_OK, "application/json", "*", dumps (.pdict fs)⟩ := by
  constructor
  · have hfalse : (stripSlashes "/carelink/nohistory" == BASEURI) = false := by
      decide
    have htrue : (stripSlashes "/carelink/nohistory" ==
        BASEURI ++ "/" ++ OPT_NOHISTORY) = true := by decide
    simp [do_GET, hfalse, htrue, get_essential_data_pdict fs hnd]
  · have htrue : (stripSlashes "/carelink" == BASEURI) = true := by decide
    simp [do_GET, htrue]

/-- Witness for C3 on a concrete snapshot holding two reserved keys and two
others (so two reserved keys are absent): the lite body keeps exactly the
non-reserved bindings, in order. -/
theorem C3_witness :
    do_GET (.pdict [("sgs", .plist []), ("foo", .pint 1),
        ("limits", .pint 2), ("lastConduitUpdateServerTime", .pint 1000000)])
      "/carelink/nohistory" =
      some ⟨HTTP_OK, "application/json", "*",
        dumps (.pdict [("foo", .pint 1),
          ("lastConduitUpdateServerTime", .pint 1000000)])⟩ := by
  have h := (C3_nohistory_is_full_minus_reserved
    [("sgs", .plist []), ("foo", .pint 1), ("limits", .pint 2),
      ("lastConduitUpdateServerTime", .pint 1000000)] (by decide)).1
  simpa using h

/-- Splitting a trace splits its login count. -/
theorem countLogin_append (a b : List Event) :
    countLogin (a ++ b) = countLogin a + countLogin b := by
  simp [countLogin, List.filter_append]

/-- Prepending one event adds its login count. -/
theorem countLogin_cons (e : Event) (l : List Event) :
    countLogin (e :: l) =
      (match e with | .loginCall _ => 1 | _ => 0) + countLogin l := by
  cases e <;> simp [countLogin, List.filter_cons, Nat.add_comm]

/-- The attempt loop performs no login call. -/
theorem countLogin_runAttemptLoop2 (store : PyVal)
    (next : Nat → AttemptResult) (idx : Nat) :
    countLogin (runAttemptLoop 2 store next idx).events = 0 := by
  cases h : next idx with
  | exn m => simp [runAttemptLoop, h, countLogin]
  | ret o =>
    by_cases hc : o.responseCode = HTTP_OK
    · by_cases hd : o.dataSuccess <;>
        simp [runAttemptLoop, h, hc, hd, countLogin]
    · cases h2 : next (idx + 1) with
      | exn m =>
        by_cases hf : o.responseCode = HTTP_FORBIDDEN <;>
          simp [runAttemptLoop, h, hc, h2, hf, countLogin,
            show HTTP_FORBIDDEN ≠ HTTP_OK from by decide]
      | ret o' =>
        by_cases hf : o.responseCode = HTTP_FORBIDDEN <;>
        by_cases hc' : o'.responseCode = HTTP_OK <;>
        by_cases hd' : o'.dataSuccess <;>
        by_cases hf' : o'.responseCode = HTTP_FORBIDDEN <;>
          simp [runAttemptLoop, h, hc, h2, hf, hc', hd', hf', countLogin,
            show HTTP_FORBIDDEN ≠ HTTP_OK from by decide]

/-- A full cycle performs no login call. -/
theorem countLogin_runCycle (store : PyVal) (next : Nat → AttemptResult)
    (idx : Nat) (wait now : Int) :
    countLogin (runCycle store next idx wait now).events = 0 := by
  cases hm : computeTmoSeconds (runAttemptLoop 2 store next idx).store
      wait now with
  | some tmo =>
    simp only [runCycle, hm]
    rw [countLogin_append, countLogin_runAttemptLoop2]
    rfl
  | none =>
    simp only [runCycle, hm]
    exact countLogin_runAttemptLoop2 _ _ _

/-- The polling loop performs no login call, however many cycles run. -/
theorem countLogin_runLoop (next : Nat → AttemptResult) (wait : Int)
    (nowAt : Nat → Int) :
    ∀ (n : Nat) (store : PyVal) (idx i : Nat),
      countLogin (runLoop next wait nowAt n store idx i).2 = 0 := by
  intro n
  induction n with
  | zero => intro store idx i; rfl
  | succ m ih =>
    intro store idx i
    simp only [runLoop]
    cases hcr : (runCycle store next idx wait (nowAt i)).crashed <;>
      simp [hcr, countLogin_cons, countLogin_append, countLogin_runCycle, ih]

/-- C8: exactly one `login()` call happens before the poll loop, for every
client behaviour and any number of observed cycles; when it returns false the
loop is never entered (no fetch call appears in the trace), the failure is
reported with the response code and error message (via `loginErrorMsg`), and
the module ends — the process exits. -/
theorem C8_single_login_fatal_on_failure (c : ClientBehavior) (n : Nat)
    (wait : Int) (nowAt : Nat → Int) :
    countLogin (runProgram c n wait nowAt).2 = 1 ∧
    (c.loginOk = false →
      countFetch (runProgram c n wait nowAt).2 = 0 ∧
      (runProgram c n wait nowAt).2 =
        [Event.loginCall false,
         Event.printMsg (loginErrorMsg c.lastResponseCode c.lastErrorMessage),
         Event.syslogErr (loginErrorMsg c.lastResponseCode c.lastErrorMessage),
         Event.syslogErr "Emergency exit",
         Event.exitProcess]) := by
  constructor
  · cases hl : c.loginOk with
    | true => simp [runProgram, hl, countLogin_cons, countLogin_runLoop]
    | false => simp [runProgram, hl, countLogin]
  · intro hf
    exact ⟨by simp [runProgram, hf, countFetch], by simp [runProgram, hf]⟩

/-- Witness for C8 at a concrete failing login (code 401, message
`"Login failure"`), with the error line evaluated. -/
theorem C8_witness :
    countLogin (runProgram
        ⟨false, 401, some "Login failure", fun _ => .exn "unused"⟩
        3 300 (fun _ => 0)).2 = 1 ∧
    countFetch (runProgram
        ⟨false, 401, some "Login failure", fun _ => .exn "unused"⟩
        3 300 (fun _ => 0)).2 = 0 ∧
    loginErrorMsg 401 (some "Login failure") =
      "Client login error! Response code: 401 Error message: Login failure" := by
  have h := C8_single_login_fatal_on_failure
    ⟨false, 401, some "Login failure", fun _ => .exn "unused"⟩ 3 300 (fun _ => 0)
  exact ⟨h.1, (h.2 rfl).1, rfl⟩

end CarelinkProxy
